import Mathlib

/-!
Shallow embedding of the labelbot core (src/labelbot/labelbot.py):
rule loading (LabelBot._get_rules, lines 124-135), rule construction
(LabelingRule.__init__, lines 195-199), matching and label reconciliation
(LabelBot._label_issues, lines 63-122), and repository registration
(LabelBot.add_repos, lines 40-57).

Modelling conventions:
- Python strings are Lean String; the byte-level behaviour of str.split and
  str.splitlines is modelled on List Char.
- The regular-expression engine is abstracted as a parameter
  found : String -> String -> Bool, where found pat text stands for
  re.compile(pat).findall(text) being non-empty.  Pattern compilation
  (re.compile in LabelingRule.__init__) is modelled as storing the pattern
  source verbatim; compilation failure is outside this model.
- Python exceptions that escape a function are modelled with Except; code
  that cannot raise inside the modelled fragment returns plainly.
- list(set(xs)) returns the elements of xs without duplicates in an
  unspecified (hash) order; it is modelled by List.dedup.  Every statement
  proved below about the deduplicated segment is order-insensitive, and the
  emptiness test the code performs on it does not depend on the order.
-/

/-- The characters on which Python str.splitlines breaks a string:
LF, CR, VT, FF, FS, GS, RS, NEL, LINE SEPARATOR, PARAGRAPH SEPARATOR. -/
def pyLineBreak (c : Char) : Bool :=
  c.toNat = 10 || c.toNat = 13 || c.toNat = 11 || c.toNat = 12 ||
  c.toNat = 28 || c.toNat = 29 || c.toNat = 30 || c.toNat = 133 ||
  c.toNat = 8232 || c.toNat = 8233

/-- Python str.split on the fixed two-character delimiter "::", scanning
left to right over non-overlapping occurrences. -/
def splitCC : List Char → List (List Char)
  | [] => [[]]
  | ':' :: ':' :: rest => [] :: splitCC rest
  | c :: rest =>
    match splitCC rest with
    | [] => [[c]]
    | s :: ss => (c :: s) :: ss

/-- Models the expression line.splitlines()[0].split("::") from line 130:
take the segment before the first line-break character, then split on "::".
(readlines never yields an empty string, so the IndexError that
splitlines()[0] would raise on "" is unreachable in the source.) -/
def pySplitFields (ℓ : String) : List (List Char) :=
  splitCC (ℓ.data.takeWhile (fun c => !pyLineBreak c))

/-- A labeling rule (class LabelingRule, lines 195-199).  The source stores
re.compile(regex) in self.pattern; the model keeps the pattern source. -/
structure LabelingRule where
  pattern : String
  label : String
deriving DecidableEq, Repr

/-- One iteration of the loop of LabelBot._get_rules (lines 129-134):
a line whose field list has length exactly 2 yields a rule built from the
two fields; any other line is skipped with a warning. -/
def parseLine (ℓ : String) : Option LabelingRule :=
  match pySplitFields ℓ with
  | [a, b] => some ⟨String.mk a, String.mk b⟩
  | _ => none

/-- LabelBot._get_rules (lines 124-135) over the list of lines read from the
rules file: returns the accumulated rules in line order and the number of
"Skipping invalid rule." warnings printed to stderr.  The function returns
normally in all cases; there is no check on the final rule count. -/
def get_rules : List String → List LabelingRule × Nat
  | [] => ([], 0)
  | ℓ :: rest =>
    let r := get_rules rest
    match parseLine ℓ with
    | some rule => (rule :: r.1, r.2)
    | none => (r.1, r.2 + 1)

/-- Error value for the startup policy the specification describes in §4.1. -/
inductive ConfigError where
  | zeroRules
deriving DecidableEq, Repr

/-- Follows the words of the specification (§4.1), for comparison with
get_rules: loading fails with a ConfigError when the resulting rule count
is zero. -/
def specLoadPolicy (lines : List String) : Except ConfigError (List LabelingRule × Nat) :=
  let r := get_rules lines
  if r.1.length = 0 then Except.error ConfigError.zeroRules else Except.ok r

/-- Whitespace-trimming of a character list from both ends, used to state
the "label non-empty after trimming" invariant of spec §3. -/
def trimChars (l : List Char) : List Char :=
  ((l.dropWhile Char.isWhitespace).reverse.dropWhile Char.isWhitespace).reverse

/-- The LabelingRule invariant claimed by spec §3 for the label component:
the label is non-empty after trimming whitespace. -/
def trimmedNonempty (r : LabelingRule) : Prop :=
  trimChars r.label.data ≠ []

instance (r : LabelingRule) : Decidable (trimmedNonempty r) := by
  unfold trimmedNonempty; infer_instance

/-- An issue as consumed by LabelBot._label_issues: its number, title, body
and the names of its existing labels (line 106), in the order the tracker
returns them. -/
structure Issue where
  number : Nat
  title : String
  body : String
  labels : List String
deriving DecidableEq, Repr

/-- Truthiness of the optional default label: Python treats both None and
the empty string as false in "if self.default_label and ..." (line 109). -/
def optTruthy (d : Option String) : Bool :=
  match d with
  | none => false
  | some s => !(s == "")

/-- The labels collected for one issue (lines 81-103): for each rule whose
pattern finds an occurrence in the body or the title the label is appended
(lines 86-90); then, when check_comments is set, for each comment and each
rule whose pattern finds an occurrence in the comment body the label is
appended again (lines 99-103).  The appended-in-order list is returned;
the matched flag of the source is exactly the non-emptiness of this list,
since every append is paired with matched = True. -/
def matchedList (found : String → String → Bool) (rules : List LabelingRule)
    (body title : String) (cc : Bool) (comments : List String) : List String :=
  ((rules.filter (fun r => found r.pattern body || found r.pattern title)).map
      (fun r => r.label))
    ++ (if cc then
          (comments.map (fun c =>
            (rules.filter (fun r => found r.pattern c)).map (fun r => r.label))).flatten
        else [])

/-- Result of the reconciliation step: the labels that would be sent and
whether the patch request is issued. -/
structure Recon where
  new_labels : List String
  changed : Bool
deriving DecidableEq, Repr

/-- Lines 105-118 of LabelBot._label_issues: append the default label when
a default is truthy and the matched flag is false (matched == 0, lines
109-110), deduplicate labels_to_add via list(set(...)) (line 113), append
the result after the existing labels (line 114), and issue the patch
exactly when the resulting list differs from the existing list as a Python
list comparison (line 115). -/
def reconcileStep (existing labels_to_add : List String) (matched : Bool)
    (d : Option String) : Recon :=
  let lta1 := if optTruthy d && !matched then labels_to_add ++ [d.getD ""]
              else labels_to_add
  let lta2 := lta1.dedup
  let new_labels := existing ++ lta2
  ⟨new_labels, decide (new_labels ≠ existing)⟩

/-- The default-label insertion of lines 109-110 phrased on the collected
list itself, used in statements: the matched flag of the source equals the
non-emptiness of the collected list. -/
def withDefault (lta : List String) (d : Option String) : List String :=
  if optTruthy d && lta.isEmpty then lta ++ [d.getD ""] else lta

/-- The per-issue pipeline of the loop body (lines 81-118) on an issue whose
comments are already at hand: collect labels, then reconcile. -/
def processIssueCore (found : String → String → Bool) (rules : List LabelingRule)
    (d : Option String) (cc : Bool) (iss : Issue) (comments : List String) : Recon :=
  let mset := matchedList found rules iss.body iss.title cc comments
  reconcileStep iss.labels mset (!mset.isEmpty) d

/-- The per-issue loop body including the comment fetch (lines 94-98): the
comments request is made only when check_comments is set; a raised
connection error there propagates (there is no try/except around it).
Returns the patch payload when the patch request of lines 115-118 fires. -/
def processIssue (found : String → String → Bool) (rules : List LabelingRule)
    (d : Option String) (cc : Bool) (iss : Issue)
    (cf : Except String (List String)) : Except String (Option (List String)) :=
  match (if cc then cf else Except.ok []) with
  | Except.error e => Except.error e
  | Except.ok comms =>
    let r := processIssueCore found rules d cc iss comms
    Except.ok (if r.changed then some r.new_labels else none)

/-- The issue loop of lines 81-118: issues are processed in order; an
exception raised while processing one issue propagates and aborts the rest
of the loop.  Returns the patches issued as (issue number, payload). -/
def issuesLoop (found : String → String → Bool) (rules : List LabelingRule)
    (d : Option String) (cc : Bool) :
    List (Issue × Except String (List String)) →
      Except String (List (Nat × List String))
  | [] => Except.ok []
  | (iss, cf) :: rest =>
    match processIssue found rules d cc iss cf with
    | Except.error e => Except.error e
    | Except.ok p =>
      match issuesLoop found rules d cc rest with
      | Except.error e => Except.error e
      | Except.ok others =>
        Except.ok ((match p with
                    | some pay => [(iss.number, pay)]
                    | none => []) ++ others)

/-- LabelBot._label_issues for one repository (lines 63-122): the issues
fetch (line 72) may raise, in which case the exception propagates out of
the function (the try/except of lines 73-77 only swallows the
raise_for_status call, it does not stop a raised connection error of the
get call itself, and a swallowed error status is not modelled as a
failure: the body is processed as issue data). -/
def label_issues (found : String → String → Bool) (rules : List LabelingRule)
    (d : Option String) (cc : Bool)
    (fetch : Except String (List (Issue × Except String (List String)))) :
    Except String (List (Nat × List String)) :=
  match fetch with
  | Except.error e => Except.error e
  | Except.ok issues => issuesLoop found rules d cc issues

/-- One round of the sched-based scheduler (LabelBot.run, line 61): the
events for the registered repositories run sequentially in registration
order, and an exception raised inside one event propagates out of
scheduler.run, so the remaining events never execute. -/
def run_round (found : String → String → Bool) (rules : List LabelingRule)
    (d : Option String) (cc : Bool) :
    List (String × Except String (List (Issue × Except String (List String)))) →
      Except String (List (String × List (Nat × List String)))
  | [] => Except.ok []
  | (repo, fetch) :: rest =>
    match label_issues found rules d cc fetch with
    | Except.error e => Except.error e
    | Except.ok patches =>
      match run_round found rules d cc rest with
      | Except.error e => Except.error e
      | Except.ok others => Except.ok ((repo, patches) :: others)

/-- NameError raised when the local variable found of LabelBot.add_repos is
read before any inner-loop iteration has assigned it. -/
inductive PyNameError where
  | foundUnbound
deriving DecidableEq, Repr

/-- The inner loop of LabelBot.add_repos (lines 45-49): for each available
repository the local found is first reset to False and then set to True on
a match, so after the loop it reflects only the last entry; every matching
entry appends its full name.  The state is (found as an optional local,
names appended so far for this reference). -/
def addReposScan (repo : String) (index : List (String × String))
    (found0 : Option Bool) : Option Bool × List String :=
  index.foldl
    (fun (st : Option Bool × List String) ar =>
      if repo = ar.1 then (some true, st.2 ++ [ar.2]) else (some false, st.2))
    (found0, [])

/-- The outer loop of LabelBot.add_repos (lines 44-52) threading the local
found across iterations: returns the registered full names in order and the
references reported invalid, or the NameError raised when found is read
unbound (index empty on the first reference). -/
def addReposGo (index : List (String × String)) :
    List String → Option Bool → Except PyNameError (List String × List String)
  | [], _ => Except.ok ([], [])
  | repo :: rest, found0 =>
    let st := addReposScan repo index found0
    match st.1 with
    | none => Except.error PyNameError.foundUnbound
    | some b =>
      match addReposGo index rest (some b) with
      | Except.error e => Except.error e
      | Except.ok (names, warns) =>
        Except.ok (st.2 ++ names, (if b then [] else [repo]) ++ warns)

/-- LabelBot.add_repos (lines 40-57): resolve each user-supplied reference
against the available-repositories listing, then register every collected
full name with the scheduler (in collection order).  Returns (registered
names, references reported "not valid or bot is not allowed to access"). -/
def add_repos (repos : List String) (index : List (String × String)) :
    Except PyNameError (List String × List String) :=
  addReposGo index repos none

/-- A sample engine for concrete instances: the pattern occurs in the text
exactly when they are equal (a degenerate but legitimate instantiation of
the abstract findall-non-empty parameter). -/
def literalEq (p t : String) : Bool := p == t

/-! Helper lemmas shared by the claim theorems. -/

lemma parseLine_eq_none_iff (ℓ : String) :
    parseLine ℓ = none ↔ (pySplitFields ℓ).length ≠ 2 := by
  unfold parseLine
  rcases h : pySplitFields ℓ with _ | ⟨a, _ | ⟨b, _ | ⟨c, t⟩⟩⟩ <;> simp [h]

lemma parseLine_eq_some_shape {ℓ : String} {r : LabelingRule}
    (h : parseLine ℓ = some r) :
    pySplitFields ℓ = [r.pattern.data, r.label.data] := by
  obtain ⟨p, l⟩ := r
  unfold parseLine at h
  rcases hs : pySplitFields ℓ with _ | ⟨a, _ | ⟨b, _ | ⟨c, t⟩⟩⟩ <;> rw [hs] at h <;>
    simp only [Option.some.injEq, LabelingRule.mk.injEq, reduceCtorEq] at h
  obtain ⟨hp, hl⟩ := h
  subst hp
  subst hl
  rfl

lemma get_rules_fst (lines : List String) :
    (get_rules lines).1 = lines.filterMap parseLine := by
  induction lines with
  | nil => rfl
  | cons ℓ rest ih =>
    cases hp : parseLine ℓ <;> simp [get_rules, hp, ih]

lemma get_rules_fst_length (lines : List String) :
    (get_rules lines).1.length =
      (lines.filter (fun ℓ => decide ((pySplitFields ℓ).length = 2))).length := by
  induction lines with
  | nil => rfl
  | cons ℓ rest ih =>
    cases hp : parseLine ℓ
    · have h2 := (parseLine_eq_none_iff ℓ).mp hp
      simp [get_rules, hp, ih, List.filter_cons, h2]
    · have hn : parseLine ℓ ≠ none := by simp [hp]
      have h2 : (pySplitFields ℓ).length = 2 := by
        by_contra hc
        exact hn ((parseLine_eq_none_iff ℓ).mpr hc)
      simp [get_rules, hp, ih, List.filter_cons, h2]

lemma get_rules_snd (lines : List String) :
    (get_rules lines).2 =
      (lines.filter (fun ℓ => decide ((pySplitFields ℓ).length ≠ 2))).length := by
  induction lines with
  | nil => rfl
  | cons ℓ rest ih =>
    cases hp : parseLine ℓ
    · have h2 := (parseLine_eq_none_iff ℓ).mp hp
      simp [get_rules, hp, ih, List.filter_cons, h2]
    · have hn : parseLine ℓ ≠ none := by simp [hp]
      have h2 : (pySplitFields ℓ).length = 2 := by
        by_contra hc
        exact hn ((parseLine_eq_none_iff ℓ).mpr hc)
      simp [get_rules, hp, ih, List.filter_cons, h2]

lemma reconcileStep_withDefault (e lta : List String) (d : Option String) :
    reconcileStep e lta (!lta.isEmpty) d =
      ⟨e ++ (withDefault lta d).dedup,
        decide (e ++ (withDefault lta d).dedup ≠ e)⟩ := by
  simp [reconcileStep, withDefault, Bool.not_not]

/-- C5: a rule source with N well-formed lines (lines splitting into exactly
two fields on the two-character delimiter "::") and M malformed lines loads
to exactly the N rules, in line order, together with exactly M warnings;
a malformed line is skipped and never aborts loading. -/
theorem rules_load_counts (lines : List String) :
    (get_rules lines).1 = lines.filterMap parseLine
  ∧ (get_rules lines).1.length =
      (lines.filter (fun ℓ => decide ((pySplitFields ℓ).length = 2))).length
  ∧ (get_rules lines).2 =
      (lines.filter (fun ℓ => decide ((pySplitFields ℓ).length ≠ 2))).length :=
  ⟨get_rules_fst lines, get_rules_fst_length lines, get_rules_snd lines⟩

/-- C2 (amended): loading a rule source all of whose lines are malformed
returns normally with an empty rule set and one warning per line; no error
of any kind is raised on a zero rule count. -/
theorem load_malformed_only_empty (lines : List String)
    (h : ∀ ℓ ∈ lines, (pySplitFields ℓ).length ≠ 2) :
    get_rules lines = ([], lines.length) := by
  induction lines with
  | nil => rfl
  | cons ℓ rest ih =>
    have hn : parseLine ℓ = none := (parseLine_eq_none_iff ℓ).mpr (h ℓ (by simp))
    have ih2 := ih (fun x hx => h x (by simp [hx]))
    simp [get_rules, hn, ih2]

/-- Witness for load_malformed_only_empty at the one-line source "garbage". -/
theorem load_malformed_only_empty_witness :
    (∀ ℓ ∈ (["garbage"] : List String), (pySplitFields ℓ).length ≠ 2) ∧
      get_rules ["garbage"] = ([], 1) :=
  ⟨by decide, load_malformed_only_empty ["garbage"] (by decide)⟩

/-- C2 counterexample: on a source holding only the malformed line
"garbage" the code returns the empty rule set with one warning and no
error, whereas the policy stated by the specification would fail with a
ConfigError for the zero rule count. -/
theorem load_malformed_only_no_error :
    get_rules ["garbage"] = ([], 1) ∧
      specLoadPolicy ["garbage"] = Except.error ConfigError.zeroRules :=
  ⟨rfl, rfl⟩

/-- C7 counterexample: the line "foo::" splits into the two fields "foo"
and "", so it is loaded as a rule whose label is empty, and empty after
trimming, violating the claimed invariant that every loaded rule has a
label that is non-empty after trimming. -/
theorem loaded_rule_empty_label :
    (get_rules ["foo::"]).1 = [⟨"foo", ""⟩] ∧
      ¬ trimmedNonempty ⟨"foo", ""⟩ :=
  ⟨rfl, by decide⟩

/-- C7 (amended): every rule in a loaded rule set originates from a line
that splits into exactly two "::"-separated fields, its pattern source
being the first field and its label the second field verbatim; the label
is not validated and may be empty after trimming. -/
theorem loaded_rules_shape (lines : List String) (r : LabelingRule)
    (h : r ∈ (get_rules lines).1) :
    ∃ ℓ, ℓ ∈ lines ∧ pySplitFields ℓ = [r.pattern.data, r.label.data] := by
  rw [get_rules_fst] at h
  rcases List.mem_filterMap.mp h with ⟨ℓ, hmem, hp⟩
  exact ⟨ℓ, hmem, parseLine_eq_some_shape hp⟩

/-- Witness for loaded_rules_shape at the one-line source "x::y". -/
theorem loaded_rules_shape_witness :
    ((⟨"x", "y"⟩ : LabelingRule) ∈ (get_rules ["x::y"]).1) ∧
      (∃ ℓ, ℓ ∈ (["x::y"] : List String) ∧
        pySplitFields ℓ = [("x" : String).data, ("y" : String).data]) :=
  ⟨by decide, loaded_rules_shape ["x::y"] ⟨"x", "y"⟩ (by decide)⟩

/-- C1: evaluation at existing = ["type/bug"] and matched = ["type/bug"]:
the union of existing and matched equals existing as a set, yet the code
reports changed = true and would send ["type/bug", "type/bug"]; a second
run on that output with the same matched set again reports changed = true,
so the redundant write is repeated and reconciliation is not idempotent. -/
theorem reconcile_changed_on_set_equal_input :
    (reconcileStep ["type/bug"] ["type/bug"] true none).changed = true
  ∧ (reconcileStep ["type/bug"] ["type/bug"] true none).new_labels =
      ["type/bug", "type/bug"]
  ∧ (["type/bug", "type/bug"] : List String).toFinset =
      (["type/bug"] : List String).toFinset
  ∧ (reconcileStep ["type/bug", "type/bug"] ["type/bug"] true none).changed = true :=
  ⟨by decide, by decide, by decide, by decide⟩

/-- C4: reconciliation is additive-only: every pre-existing label is
contained in the computed new label list, for every matched list, matched
flag and optional default label. -/
theorem reconcile_additive (existing lta : List String) (m : Bool)
    (d : Option String) (l : String) (h : l ∈ existing) :
    l ∈ (reconcileStep existing lta m d).new_labels := by
  simp only [reconcileStep]
  exact List.mem_append_left _ h

/-- Witness for reconcile_additive at a concrete input. -/
theorem reconcile_additive_witness :
    (("keep" : String) ∈ (["keep"] : List String)) ∧
      ("keep" : String) ∈ (reconcileStep ["keep"] ["x"] true none).new_labels :=
  ⟨by decide, reconcile_additive ["keep"] ["x"] true none "keep" (by decide)⟩

/-- C3: the default label is appended exactly when the collected matched
list is empty and a default label is configured (truthy); when any rule
matched, the new label list is the existing labels plus the deduplicated
matched list only, so the default is never auto-added; and when nothing
matched and no default is set, the labels are unchanged and no patch is
issued. -/
theorem default_label_exactly_on_no_match (found : String → String → Bool)
    (rules : List LabelingRule) (d : Option String) (cc : Bool) (iss : Issue)
    (comments : List String) :
    (matchedList found rules iss.body iss.title cc comments = [] →
      optTruthy d = true →
        (processIssueCore found rules d cc iss comments).new_labels =
          iss.labels ++ [d.getD ""])
  ∧ (matchedList found rules iss.body iss.title cc comments ≠ [] →
      (processIssueCore found rules d cc iss comments).new_labels =
        iss.labels ++ (matchedList found rules iss.body iss.title cc comments).dedup)
  ∧ (matchedList found rules iss.body iss.title cc comments = [] →
      optTruthy d = false →
        processIssueCore found rules d cc iss comments = ⟨iss.labels, false⟩) := by
  refine ⟨?_, ?_, ?_⟩
  · intro h ht
    simp [processIssueCore, h, reconcileStep, ht]
  · intro h
    rcases hm : matchedList found rules iss.body iss.title cc comments with _ | ⟨a, t⟩
    · exact absurd hm h
    · simp [processIssueCore, hm, reconcileStep]
  · intro h ht
    simp [processIssueCore, h, reconcileStep, ht]

/-- Witness for default_label_exactly_on_no_match: all three parts applied
at concrete inputs (no rules with a default, a matching rule with a
default, no rules and no default). -/
theorem default_label_exactly_on_no_match_witness :
    (processIssueCore literalEq [] (some "fallback") false
        ⟨0, "t", "b", ["old"]⟩ []).new_labels = ["old"] ++ ["fallback"]
  ∧ (processIssueCore literalEq [⟨"b", "lab"⟩] (some "fallback") false
        ⟨0, "t", "b", ["old"]⟩ []).new_labels =
      ["old"] ++ (matchedList literalEq [⟨"b", "lab"⟩] "b" "t" false []).dedup
  ∧ processIssueCore literalEq [] none false ⟨0, "t", "b", ["old"]⟩ [] =
      ⟨["old"], false⟩ :=
  ⟨(default_label_exactly_on_no_match literalEq [] (some "fallback") false
      ⟨0, "t", "b", ["old"]⟩ []).1 (by decide) (by decide),
   (default_label_exactly_on_no_match literalEq [⟨"b", "lab"⟩] (some "fallback")
      false ⟨0, "t", "b", ["old"]⟩ []).2.1 (by decide),
   (default_label_exactly_on_no_match literalEq [] none false
      ⟨0, "t", "b", ["old"]⟩ []).2.2 (by decide) (by decide)⟩

/-- C6: the collected matched labels form, as a set, exactly the labels of
the rules whose pattern finds at least one occurrence in the body, in the
title, or (when comment checking is enabled) in some comment body; a rule
matching several blocks hence contributes its label once under set
semantics, and the collection is a pure function of its inputs. -/
theorem matchedList_characterization (found : String → String → Bool)
    (rules : List LabelingRule) (body title : String) (cc : Bool)
    (comments : List String) :
    (matchedList found rules body title cc comments).toFinset =
      ((rules.filter (fun r =>
          found r.pattern body || found r.pattern title ||
            (cc && comments.any (fun c => found r.pattern c)))).map
        (fun r => r.label)).toFinset := by
  cases cc
  · ext a
    simp [matchedList]
  · ext a
    simp only [matchedList, if_true, Bool.true_and, List.mem_toFinset,
      List.mem_append, List.mem_map, List.mem_filter, List.mem_flatten,
      List.any_eq_true, Bool.or_eq_true]
    constructor
    · rintro (⟨r, ⟨hr, hf⟩, hl⟩ | ⟨l2, ⟨c, hc, hl2⟩, ha⟩)
      · exact ⟨r, ⟨hr, Or.inl hf⟩, hl⟩
      · subst hl2
        rcases List.mem_map.mp ha with ⟨r, hrf, hl⟩
        rcases List.mem_filter.mp hrf with ⟨hr, hf⟩
        exact ⟨r, ⟨hr, Or.inr ⟨c, hc, hf⟩⟩, hl⟩
    · rintro ⟨r, ⟨hr, hf | ⟨c, hc, hf⟩⟩, hl⟩
      · exact Or.inl ⟨r, ⟨hr, hf⟩, hl⟩
      · refine Or.inr ⟨(rules.filter (fun r => found r.pattern c)).map
          (fun r => r.label), ⟨c, hc, rfl⟩, ?_⟩
        exact List.mem_map.mpr ⟨r, List.mem_filter.mpr ⟨hr, hf⟩, hl⟩

lemma processIssueCore_new_labels (found : String → String → Bool)
    (rules : List LabelingRule) (d : Option String) (cc : Bool) (iss : Issue)
    (comments : List String) :
    (processIssueCore found rules d cc iss comments).new_labels =
      iss.labels ++
        (withDefault (matchedList found rules iss.body iss.title cc comments) d).dedup := by
  simp only [processIssueCore]
  rw [reconcileStep_withDefault]

/-- C10: whenever an update is issued for an issue, the payload sent is the
existing labels unchanged and in their original order, followed by the
deduplicated newly determined labels (matched labels, or the default); the
appended segment is not filtered against the existing labels, so a newly
determined label already present occurs at least twice in the payload. -/
theorem patch_payload_shape (found : String → String → Bool)
    (rules : List LabelingRule) (d : Option String) (cc : Bool) (iss : Issue)
    (comments : List String) (payload : List String)
    (h : processIssue found rules d cc iss (Except.ok comments) =
      Except.ok (some payload)) :
    payload = iss.labels ++
        (withDefault (matchedList found rules iss.body iss.title cc comments) d).dedup
  ∧ ∀ l, l ∈ iss.labels →
      l ∈ withDefault (matchedList found rules iss.body iss.title cc comments) d →
        2 ≤ payload.count l := by
  have hpi : processIssue found rules d cc iss (Except.ok comments) =
      Except.ok (if (processIssueCore found rules d cc iss comments).changed
                 then some (processIssueCore found rules d cc iss comments).new_labels
                 else none) := by
    cases cc
    · simp [processIssue, processIssueCore, matchedList]
    · simp [processIssue]
  rw [hpi] at h
  have hpay : payload = (processIssueCore found rules d cc iss comments).new_labels := by
    by_cases hch : (processIssueCore found rules d cc iss comments).changed = true
    · rw [hch] at h
      simp only [if_true, Except.ok.injEq, Option.some.injEq] at h
      exact h.symm
    · rw [Bool.not_eq_true] at hch
      rw [hch] at h
      simp at h
  constructor
  · rw [hpay, processIssueCore_new_labels]
  · intro l hl hw
    rw [hpay, processIssueCore_new_labels, List.count_append, List.count_dedup]
    have h1 : 0 < iss.labels.count l := List.count_pos_iff.mpr hl
    rw [if_pos hw]
    omega

/-- Witness for patch_payload_shape: a rule label that is already among the
existing labels is appended anyway and occurs twice in the payload. -/
theorem patch_payload_shape_witness :
    (processIssue literalEq [⟨"bug", "dup"⟩] none false ⟨1, "t", "bug", ["dup"]⟩
        (Except.ok []) = Except.ok (some ["dup", "dup"])) ∧
      ((["dup", "dup"] : List String) = ["dup"] ++
          (withDefault (matchedList literalEq [⟨"bug", "dup"⟩] "bug" "t" false [])
            none).dedup
        ∧ ∀ l, l ∈ (["dup"] : List String) →
            l ∈ withDefault (matchedList literalEq [⟨"bug", "dup"⟩] "bug" "t" false [])
                  none →
              2 ≤ (["dup", "dup"] : List String).count l) :=
  ⟨rfl, patch_payload_shape literalEq [⟨"bug", "dup"⟩] none false
    ⟨1, "t", "bug", ["dup"]⟩ [] ["dup", "dup"] rfl⟩

/-- C8: evaluation showing the claim false on the code: the reference "A"
is present in the accessible index as its first entry, yet add_repos both
registers its full name and reports it as invalid, because the found flag
is reset at the top of the scan over the index and so reflects only the
last entry; with an empty index, add_repos raises a NameError on the
unbound found flag instead of reporting non-fatally. -/
theorem add_repos_warns_present_reference :
    add_repos ["A"] [("A", "X"), ("B", "Y")] = Except.ok (["X"], ["A"])
  ∧ ("A", "X") ∈ ([("A", "X"), ("B", "Y")] : List (String × String))
  ∧ add_repos ["A"] [] = Except.error PyNameError.foundUnbound :=
  ⟨rfl, by decide, rfl⟩

/-- C9: evaluation showing the claim false on the code: with repositories X
and Y scheduled in the same round, a connection failure while fetching the
issues of X propagates out of the scheduler loop, so Y is never processed,
although the cycle of Y alone would have issued an update; likewise, with
comment checking enabled, a comment-fetch failure on one issue aborts the
remaining issues of the same repository instead of being isolated. -/
theorem fetch_error_aborts_round :
    run_round literalEq [⟨"bug", "type/bug"⟩] none false
        [("X", Except.error "connection failed"),
          ("Y", Except.ok [(⟨1, "t", "bug", []⟩, Except.ok [])])] =
      Except.error "connection failed"
  ∧ label_issues literalEq [⟨"bug", "type/bug"⟩] none false
        (Except.ok [(⟨1, "t", "bug", []⟩, Except.ok [])]) =
      Except.ok [(1, ["type/bug"])]
  ∧ label_issues literalEq [⟨"bug", "type/bug"⟩] none true
        (Except.ok [(⟨1, "t", "bug", []⟩, Except.error "comment fetch failed"),
          (⟨2, "t", "bug", []⟩, Except.ok [])]) =
      Except.error "comment fetch failed" :=
  ⟨rfl, rfl, rfl⟩
